import Mathlib

/-!
Shallow embedding of the model-serving gateway of this repository:
the combined server `scripts/embed-server.py` and the split services
`docker/embed-service/embed-service.py` and
`docker/rerank-service/rerank-service.py`.

Python dictionaries are modelled as association lists, machine floats
carried through unchanged by the gateway are modelled as `Int` scores
(the gateway never computes with them, it only pairs, sorts and
truncates), exceptions as `Except String`, and the external ML library
(fastembed / sentence-transformers constructors and inference calls) as
oracle functions supplied as parameters.  HTTP handlers return an
explicit status code together with a body.
-/

namespace EmbedServer

instance {ε α : Type} [DecidableEq ε] [DecidableEq α] : DecidableEq (Except ε α)
  | .ok a, .ok b => decidable_of_iff (a = b) (by simp)
  | .ok _, .error _ => isFalse (fun h => Except.noConfusion h)
  | .error _, .ok _ => isFalse (fun h => Except.noConfusion h)
  | .error e, .error f => decidable_of_iff (e = f) (by simp)

/-- One entry of a rerank response: original document index, score and
document text (`{'index': idx, 'score': score, 'document': documents[idx]}`). -/
structure RerankEntry where
  index : Nat
  score : Int
  document : String
deriving Repr, DecidableEq

/-- `indexed_scores = [(i, float(score)) for i, score in enumerate(scores)]`
(embed-server.py line 354, rerank-service.py line 109). -/
def indexedScores (scores : List Int) : List (Nat × Int) := scores.enum

/-- `indexed_scores.sort(key=lambda x: x[1], reverse=True)`: Python's sort is
stable, and `reverse=True` keeps equal keys in input order, so this is the
stable sort by score descending; `List.insertionSort` with the relation
"left score ≥ right score" is exactly that stable sort. -/
def sortScoresDesc (scores : List Int) : List (Nat × Int) :=
  (indexedScores scores).insertionSort (fun a b => b.2 ≤ a.2)

/-- Python slice `l[:t]` for integer `t`: for `t ≥ 0` the first `t` elements,
for `t < 0` all but the last `-t` elements (clamped at the ends). -/
def pySliceTo (t : Int) (l : List α) : List α :=
  if 0 ≤ t then l.take t.toNat else l.take ((l.length : Int) + t).toNat

/-- `if top_n: indexed_scores = indexed_scores[:top_n]`
(embed-server.py lines 358-359, rerank-service.py lines 113-114):
the slice is applied only when `top_n` is truthy, i.e. present and nonzero. -/
def applyTopN (top_n : Option Int) (l : List (Nat × Int)) : List (Nat × Int) :=
  match top_n with
  | some t => if t ≠ 0 then pySliceTo t l else l
  | none => l

/-- The result-building comprehension (embed-server.py lines 362-369,
rerank-service.py lines 117-124).  `documents[idx]` raises `IndexError`
exactly when some index is out of range, which the handler's catch-all turns
into an error response; otherwise each pair becomes an entry whose
`document` field is `documents[idx]`. -/
def buildResults (documents : List String) (pairs : List (Nat × Int)) :
    Except String (List RerankEntry) :=
  if pairs.all (fun p => p.1 < documents.length) then
    Except.ok (pairs.map (fun p => ⟨p.1, p.2, documents.getD p.1 ""⟩))
  else Except.error "list index out of range"

/-- The whole rerank pipeline applied to the scores returned by the
cross-encoder: enumerate, stable-sort by score descending, truncate by
`top_n` when truthy, build entries (embed-server.py lines 351-369,
identically rerank-service.py lines 106-124). -/
def rerankCore (scores : List Int) (documents : List String) (top_n : Option Int) :
    Except String (List RerankEntry) :=
  buildResults documents (applyTopN top_n (sortScoresDesc scores))

/-! ## Supported-model tables (embed-server.py lines 29-53) -/

/-- `FASTEMBED_SUPPORTED` (lines 29-37). -/
def FASTEMBED_SUPPORTED : List String :=
  ["intfloat/multilingual-e5-large",
   "BAAI/bge-base-en-v1.5",
   "BAAI/bge-small-en-v1.5",
   "jinaai/jina-embeddings-v2-base-code",
   "sentence-transformers/paraphrase-multilingual-MiniLM-L12-v2"]

/-- `RERANKER_SUPPORTED['fastembed']` (lines 42-48). -/
def RERANKER_SUPPORTED_fastembed : List String :=
  ["BAAI/bge-reranker-base",
   "BAAI/bge-reranker-large",
   "jinaai/jina-reranker-v2-base-multilingual",
   "Xenova/ms-marco-MiniLM-L-6-v2",
   "Xenova/ms-marco-MiniLM-L-12-v2"]

/-- `RERANKER_SUPPORTED['sentence-transformers']` (lines 49-52). -/
def RERANKER_SUPPORTED_st : List String :=
  ["BAAI/bge-reranker-v2-m3",
   "cross-encoder/ms-marco-MiniLM-L-6-v2"]

/-! ## External library oracles and observable events

The gateway's own logic never inspects model instances, so the model type
`M` is a parameter; the external constructors and inference calls are
oracle functions, and each invocation of one is recorded as an event so
that "the loader was (not) invoked" is an observable statement. -/

/-- An observable call into the external ML library. -/
inductive ExtEvent where
  | load (constructorName : String) (modelName : String)
  | infer (callName : String)
deriving Repr, DecidableEq

/-- The external library surface used by the handlers: constructors
(`TextEmbedding`, `SentenceTransformer`, `TextCrossEncoder`, `CrossEncoder`)
and inference calls (`embed`, `encode`, `rerank`, `predict`).  Each may
raise, modelled as `Except String`. -/
structure Ext (M : Type) where
  textEmbedding : String → Except String M
  sentenceTransformer : String → Bool → Except String M
  textCrossEncoder : String → Except String M
  crossEncoder : String → Bool → Except String M
  feEmbed : M → List String → Except String (List (List Int))
  stEncode : M → String → Option String → Except String (List Int)
  stEncodeBatch : M → List String → Option String → Except String (List (List Int))
  feRerank : M → String → List String → Except String (List Int)
  stPredict : M → List (String × String) → Except String (List Int)

/-- The three module-level model caches of embed-server.py (lines 21-23),
Python dicts modelled as association lists. -/
structure ServerState (M : Type) where
  fastembed_models : List (String × M)
  st_models : List (String × M)
  reranker_models : List (String × M)
deriving Repr, DecidableEq

/-- The initial state: all caches empty. -/
def ServerState.empty (M : Type) : ServerState M := ⟨[], [], []⟩

/-- Result of a get-or-load helper: the model or the raised exception, the
cache state after the call, and the external calls made during it. -/
structure GetOut (M : Type) where
  res : Except String M
  state : ServerState M
  events : List ExtEvent
deriving DecidableEq

/-! ## Cache getters (embed-server.py lines 56-101) -/

/-- `get_fastembed_model` (lines 81-89): presence check on the dict, then
the supported-set check, then the `TextEmbedding` constructor, then store. -/
def get_fastembed_model (ext : Ext M) (st : ServerState M) (model_name : String) :
    GetOut M :=
  match st.fastembed_models.lookup model_name with
  | some m => ⟨.ok m, st, []⟩
  | none =>
    if model_name ∉ FASTEMBED_SUPPORTED then
      ⟨.error ("Fastembed does not support " ++ model_name), st, []⟩
    else
      match ext.textEmbedding model_name with
      | .ok m =>
          ⟨.ok m,
           { st with fastembed_models := st.fastembed_models ++ [(model_name, m)] },
           [.load "TextEmbedding" model_name]⟩
      | .error e => ⟨.error e, st, [.load "TextEmbedding" model_name]⟩

/-- `get_st_model` (lines 92-101): presence check, then the
`SentenceTransformer` constructor directly — no supported-set check exists
on this path. -/
def get_st_model (ext : Ext M) (st : ServerState M) (model_name : String)
    (trust_remote_code : Bool) : GetOut M :=
  match st.st_models.lookup model_name with
  | some m => ⟨.ok m, st, []⟩
  | none =>
    match ext.sentenceTransformer model_name trust_remote_code with
    | .ok m =>
        ⟨.ok m,
         { st with st_models := st.st_models ++ [(model_name, m)] },
         [.load "SentenceTransformer" model_name]⟩
    | .error e => ⟨.error e, st, [.load "SentenceTransformer" model_name]⟩

/-- `get_reranker_model` (lines 56-78): cache key `method:model`; the
fastembed branch checks its supported set before constructing
`TextCrossEncoder`, the sentence-transformers branch constructs
`CrossEncoder` with no supported-set check, any other method raises. -/
def get_reranker_model (ext : Ext M) (st : ServerState M)
    (method model_name : String) (trust_remote_code : Bool) : GetOut M :=
  let cache_key := method ++ ":" ++ model_name
  match st.reranker_models.lookup cache_key with
  | some m => ⟨.ok m, st, []⟩
  | none =>
    if method = "fastembed" then
      if model_name ∉ RERANKER_SUPPORTED_fastembed then
        ⟨.error ("Fastembed reranker does not support " ++ model_name), st, []⟩
      else
        match ext.textCrossEncoder model_name with
        | .ok m =>
            ⟨.ok m,
             { st with reranker_models := st.reranker_models ++ [(cache_key, m)] },
             [.load "TextCrossEncoder" model_name]⟩
        | .error e => ⟨.error e, st, [.load "TextCrossEncoder" model_name]⟩
    else if method = "sentence-transformers" then
      match ext.crossEncoder model_name trust_remote_code with
      | .ok m =>
          ⟨.ok m,
           { st with reranker_models := st.reranker_models ++ [(cache_key, m)] },
           [.load "CrossEncoder" model_name]⟩
      | .error e => ⟨.error e, st, [.load "CrossEncoder" model_name]⟩
    else
      ⟨.error ("Unknown reranker method: " ++ method), st, []⟩

/-! ## HTTP handlers of embed-server.py -/

/-- Python truthiness of an optional string field (`data.get('x')`):
falsy when the field is absent (None) or the empty string. -/
def truthy : Option String → Bool
  | none => false
  | some s => !s.isEmpty

/-- An HTTP error response: status code and the `{'error': ...}` body. -/
structure ErrResp where
  status : Nat
  error : String
deriving Repr, DecidableEq

/-- A handler outcome: the response (or error response), the cache state
after the request, and the external calls made while handling it. -/
structure HandlerOut (M R : Type) where
  result : Except ErrResp R
  state : ServerState M
  events : List ExtEvent
deriving DecidableEq

/-- `POST /embed` request body (latency-irrelevant fields as parsed on
lines 131-141). -/
structure EmbedRequest where
  method : Option String
  model : Option String
  text : Option String
  trust_remote_code : Bool
  prompt_name : Option String
deriving Repr, DecidableEq

/-- `POST /embed` 200 body (lines 165-169, latency omitted as ambient). -/
structure EmbedResponse where
  embedding : List Int
  dimension : Nat
deriving Repr, DecidableEq

/-- `POST /embed/batch` request body (lines 190-199). -/
structure BatchEmbedRequest where
  method : Option String
  model : Option String
  texts : List String
  trust_remote_code : Bool
  prompt_name : Option String
deriving Repr, DecidableEq

/-- `POST /embed/batch` 200 body (lines 220-225, latency omitted). -/
structure BatchEmbedResponse where
  embeddings : List (List Int)
  count : Nat
  dimension : Nat
deriving Repr, DecidableEq

/-- `POST /rerank` request body (lines 332-338). -/
structure RerankRequest where
  method : Option String
  model : Option String
  query : Option String
  documents : List String
  top_n : Option Int
  trust_remote_code : Bool
deriving Repr, DecidableEq

/-- `POST /rerank` 200 body (lines 397-401, latency omitted). -/
structure RerankResponse where
  results : List RerankEntry
  count : Nat
deriving Repr, DecidableEq

/-- The `/embed` handler (embed-server.py lines 117-173). -/
def embed (ext : Ext M) (st : ServerState M) (req : EmbedRequest) :
    HandlerOut M EmbedResponse :=
  if !(truthy req.method && truthy req.model && truthy req.text) then
    ⟨.error ⟨400, "Missing required fields: method, model, text"⟩, st, []⟩
  else
    let method := req.method.getD ""
    let model_name := req.model.getD ""
    let text := req.text.getD ""
    if method = "fastembed" then
      match get_fastembed_model ext st model_name with
      | ⟨.error e, st1, ev⟩ => ⟨.error ⟨500, e⟩, st1, ev⟩
      | ⟨.ok m, st1, ev⟩ =>
        match ext.feEmbed m [text] with
        | .error e => ⟨.error ⟨500, e⟩, st1, ev ++ [.infer "embed"]⟩
        | .ok embs =>
          match embs with
          | [] => ⟨.error ⟨500, "list index out of range"⟩, st1, ev ++ [.infer "embed"]⟩
          | emb :: _ => ⟨.ok ⟨emb, emb.length⟩, st1, ev ++ [.infer "embed"]⟩
    else if method = "sentence-transformers" then
      match get_st_model ext st model_name req.trust_remote_code with
      | ⟨.error e, st1, ev⟩ => ⟨.error ⟨500, e⟩, st1, ev⟩
      | ⟨.ok m, st1, ev⟩ =>
        match ext.stEncode m text
            (if truthy req.prompt_name then req.prompt_name else none) with
        | .error e => ⟨.error ⟨500, e⟩, st1, ev ++ [.infer "encode"]⟩
        | .ok emb => ⟨.ok ⟨emb, emb.length⟩, st1, ev ++ [.infer "encode"]⟩
    else
      ⟨.error ⟨400, "Unknown method: " ++ method⟩, st, []⟩

/-- The `/embed/batch` handler (embed-server.py lines 176-229). -/
def embed_batch (ext : Ext M) (st : ServerState M) (req : BatchEmbedRequest) :
    HandlerOut M BatchEmbedResponse :=
  if !(truthy req.method && truthy req.model) || req.texts.isEmpty then
    ⟨.error ⟨400, "Missing required fields: method, model, texts"⟩, st, []⟩
  else
    let method := req.method.getD ""
    let model_name := req.model.getD ""
    if method = "fastembed" then
      match get_fastembed_model ext st model_name with
      | ⟨.error e, st1, ev⟩ => ⟨.error ⟨500, e⟩, st1, ev⟩
      | ⟨.ok m, st1, ev⟩ =>
        match ext.feEmbed m req.texts with
        | .error e => ⟨.error ⟨500, e⟩, st1, ev ++ [.infer "embed"]⟩
        | .ok vecs =>
          let embeddings := vecs.map (fun emb => emb.map (fun x => x))
          ⟨.ok ⟨embeddings, embeddings.length,
              (match embeddings with | [] => 0 | v :: _ => v.length)⟩,
           st1, ev ++ [.infer "embed"]⟩
    else if method = "sentence-transformers" then
      match get_st_model ext st model_name req.trust_remote_code with
      | ⟨.error e, st1, ev⟩ => ⟨.error ⟨500, e⟩, st1, ev⟩
      | ⟨.ok m, st1, ev⟩ =>
        match ext.stEncodeBatch m req.texts
            (if truthy req.prompt_name then req.prompt_name else none) with
        | .error e => ⟨.error ⟨500, e⟩, st1, ev ++ [.infer "encode"]⟩
        | .ok vecs =>
          ⟨.ok ⟨vecs, vecs.length,
              (match vecs with | [] => 0 | v :: _ => v.length)⟩,
           st1, ev ++ [.infer "encode"]⟩
    else
      ⟨.error ⟨400, "Unknown method: " ++ (req.method.getD "")⟩, st, []⟩

/-- The `/rerank` handler (embed-server.py lines 308-405).  Note that
`get_reranker_model` runs before the method dispatch, inside the `try`, so
an unknown method raises there and is caught as a 500. -/
def rerank (ext : Ext M) (st : ServerState M) (req : RerankRequest) :
    HandlerOut M RerankResponse :=
  if !(truthy req.method && truthy req.model && truthy req.query)
      || req.documents.isEmpty then
    ⟨.error ⟨400, "Missing required fields: method, model, query, documents"⟩, st, []⟩
  else
    let method := req.method.getD ""
    let model_name := req.model.getD ""
    let query := req.query.getD ""
    match get_reranker_model ext st method model_name req.trust_remote_code with
    | ⟨.error e, st1, ev⟩ => ⟨.error ⟨500, e⟩, st1, ev⟩
    | ⟨.ok m, st1, ev⟩ =>
      if method = "fastembed" then
        match ext.feRerank m query req.documents with
        | .error e => ⟨.error ⟨500, e⟩, st1, ev ++ [.infer "rerank"]⟩
        | .ok scores =>
          match rerankCore scores req.documents req.top_n with
          | .error e => ⟨.error ⟨500, e⟩, st1, ev ++ [.infer "rerank"]⟩
          | .ok results => ⟨.ok ⟨results, results.length⟩, st1, ev ++ [.infer "rerank"]⟩
      else if method = "sentence-transformers" then
        match ext.stPredict m (req.documents.map (fun d => (query, d))) with
        | .error e => ⟨.error ⟨500, e⟩, st1, ev ++ [.infer "predict"]⟩
        | .ok scores =>
          match rerankCore scores req.documents req.top_n with
          | .error e => ⟨.error ⟨500, e⟩, st1, ev ++ [.infer "predict"]⟩
          | .ok results => ⟨.ok ⟨results, results.length⟩, st1, ev ++ [.infer "predict"]⟩
      else
        ⟨.error ⟨400, "Unknown method: " ++ method⟩, st1, ev⟩

/-! ## The split services (docker/embed-service, docker/rerank-service)

Each split service holds a single module-global model (`None` until
loaded), so its cache state is an `Option M`. -/

/-- A split-service handler outcome. -/
structure SvcOut (M R : Type) where
  result : Except ErrResp R
  state : Option M
  events : List ExtEvent
deriving DecidableEq

/-- `get_model` of the split services (embed-service.py lines 24-34,
rerank-service.py lines 23-33): `if model is None: model = Constructor(...)`. -/
def svc_get_model (label : String) (load : Except String M) (st : Option M) :
    Except String M × Option M × List ExtEvent :=
  match st with
  | some m => (.ok m, some m, [])
  | none =>
    match load with
    | .ok m => (.ok m, some m, [.load label "fixed-model"])
    | .error e => (.error e, none, [.load label "fixed-model"])

/-- The `/embed/batch` handler of embed-service.py (lines 111-151). -/
def svc_embed_batch (load : Except String M)
    (embedOracle : M → List String → Except String (List (List Int)))
    (st : Option M) (texts : List String) : SvcOut M BatchEmbedResponse :=
  if texts.isEmpty then
    ⟨.error ⟨400, "Missing required field: texts"⟩, st, []⟩
  else
    match svc_get_model "TextEmbedding" load st with
    | (.error e, st1, ev) => ⟨.error ⟨500, e⟩, st1, ev⟩
    | (.ok m, st1, ev) =>
      match embedOracle m texts with
      | .error e => ⟨.error ⟨500, e⟩, st1, ev ++ [.infer "embed"]⟩
      | .ok vecs =>
        let embeddings := vecs.map (fun emb => emb.map (fun x => x))
        ⟨.ok ⟨embeddings, embeddings.length,
            (match embeddings with | [] => 0 | v :: _ => v.length)⟩,
         st1, ev ++ [.infer "embed"]⟩

/-- The `/rerank` handler of rerank-service.py (lines 67-136): separate 400
checks for `query` and `documents`, then the identical rerank pipeline. -/
def svc_rerank (load : Except String M)
    (rerankOracle : M → String → List String → Except String (List Int))
    (st : Option M) (query : Option String) (documents : List String)
    (top_n : Option Int) : SvcOut M RerankResponse :=
  if !(truthy query) then
    ⟨.error ⟨400, "Missing required field: query"⟩, st, []⟩
  else if documents.isEmpty then
    ⟨.error ⟨400, "Missing required field: documents"⟩, st, []⟩
  else
    match svc_get_model "TextCrossEncoder" load st with
    | (.error e, st1, ev) => ⟨.error ⟨500, e⟩, st1, ev⟩
    | (.ok m, st1, ev) =>
      match rerankOracle m (query.getD "") documents with
      | .error e => ⟨.error ⟨500, e⟩, st1, ev ++ [.infer "rerank"]⟩
      | .ok scores =>
        match rerankCore scores documents top_n with
        | .error e => ⟨.error ⟨500, e⟩, st1, ev ++ [.infer "rerank"]⟩
        | .ok results => ⟨.ok ⟨results, results.length⟩, st1, ev ++ [.infer "rerank"]⟩

/-! ## Ordering lemmas for the stable descending sort -/

/-- The order the stable descending sort actually produces on an enumerated
list: strictly higher score first, equal scores in ascending index order. -/
def scoreIdxLE (a b : Nat × Int) : Prop := b.2 < a.2 ∨ (a.2 = b.2 ∧ a.1 ≤ b.1)

theorem sorted_orderedInsert_of_min_fst (a : Nat × Int) :
    ∀ l : List (Nat × Int), l.Sorted scoreIdxLE → (∀ b ∈ l, a.1 ≤ b.1) →
      (l.orderedInsert (fun x y => y.2 ≤ x.2) a).Sorted scoreIdxLE
  | [], _, _ => List.sorted_singleton a
  | b :: t, hs, hmin => by
    simp only [List.orderedInsert]
    by_cases hab : b.2 ≤ a.2
    · rw [if_pos hab]
      refine List.sorted_cons.mpr ⟨?_, hs⟩
      intro c hc
      have hcb : c.2 ≤ b.2 := by
        rcases List.mem_cons.mp hc with rfl | hc2
        · exact le_refl _
        · rcases List.rel_of_sorted_cons hs c hc2 with h | ⟨h, _⟩
          · exact le_of_lt h
          · exact le_of_eq h.symm
      rcases lt_or_eq_of_le (le_trans hcb hab) with h | h
      · exact Or.inl h
      · exact Or.inr ⟨h.symm, hmin c hc⟩
    · rw [if_neg hab]
      have hst := List.sorted_cons.mp hs
      refine List.sorted_cons.mpr ⟨?_, sorted_orderedInsert_of_min_fst a t hst.2
        (fun c hc => hmin c (List.mem_cons_of_mem _ hc))⟩
      intro c hc
      have hc' : c = a ∨ c ∈ t := by
        have := (List.perm_orderedInsert (fun x y => y.2 ≤ x.2) a t).mem_iff.mp hc
        simpa using this
      rcases hc' with rfl | hc'
      · exact Or.inl (lt_of_not_le hab)
      · exact hst.1 c hc'

theorem sorted_scoreIdxLE_insertionSort_enumFrom (xs : List Int) :
    ∀ n, ((xs.enumFrom n).insertionSort (fun a b => b.2 ≤ a.2)).Sorted scoreIdxLE := by
  induction xs with
  | nil => intro n; simp [List.insertionSort]
  | cons x t ih =>
    intro n
    rw [List.enumFrom_cons]
    simp only [List.insertionSort]
    refine sorted_orderedInsert_of_min_fst (n, x) _ (ih (n + 1)) ?_
    intro b hb
    have hb' : b ∈ t.enumFrom (n + 1) :=
      (List.perm_insertionSort (fun a b : Nat × Int => b.2 ≤ a.2) _).mem_iff.mp hb
    have := List.le_fst_of_mem_enumFrom hb'
    omega

/-- The sorted list, viewed through `scoreIdxLE`. -/
theorem sortScoresDesc_sorted_scoreIdxLE (scores : List Int) :
    (sortScoresDesc scores).Sorted scoreIdxLE :=
  sorted_scoreIdxLE_insertionSort_enumFrom scores 0

/-- Indices in the sorted list are pairwise distinct (they come from the
enumeration, which the sort permutes). -/
theorem sortScoresDesc_pairwise_ne_fst (scores : List Int) :
    (sortScoresDesc scores).Pairwise (fun a b => a.1 ≠ b.1) := by
  have hperm : List.Perm (sortScoresDesc scores) scores.enum :=
    List.perm_insertionSort _ _
  have h1 : (scores.enum.map Prod.fst).Nodup := by
    rw [List.enum_map_fst]
    exact List.nodup_range _
  have h2 : ((sortScoresDesc scores).map Prod.fst).Nodup :=
    ((hperm.map Prod.fst).nodup_iff).mpr h1
  exact List.pairwise_map.mp h2

/-- Strict form: pairs appear in strictly descending score order, equal
scores in strictly ascending index order. -/
theorem sortScoresDesc_pairwise_strict (scores : List Int) :
    (sortScoresDesc scores).Pairwise
      (fun a b => b.2 < a.2 ∨ (a.2 = b.2 ∧ a.1 < b.1)) := by
  have h := (sortScoresDesc_sorted_scoreIdxLE scores).and
    (sortScoresDesc_pairwise_ne_fst scores)
  refine h.imp ?_
  rintro a b ⟨hle | ⟨heq, hidx⟩, hne⟩
  · exact Or.inl hle
  · exact Or.inr ⟨heq, lt_of_le_of_ne hidx hne⟩

/-- Scores appear in (weakly) descending order. -/
theorem sortScoresDesc_pairwise_desc (scores : List Int) :
    (sortScoresDesc scores).Pairwise (fun a b => b.2 ≤ a.2) := by
  refine (sortScoresDesc_sorted_scoreIdxLE scores).imp ?_
  rintro a b (h | ⟨h, _⟩)
  · exact le_of_lt h
  · exact le_of_eq h.symm

theorem length_sortScoresDesc (scores : List Int) :
    (sortScoresDesc scores).length = scores.length := by
  rw [sortScoresDesc, List.length_insertionSort]
  simp [indexedScores]

theorem fst_lt_length_of_mem_sortScoresDesc {p : Nat × Int} {scores : List Int}
    (hp : p ∈ sortScoresDesc scores) : p.1 < scores.length := by
  have hp' : p ∈ scores.enum :=
    (List.perm_insertionSort (fun a b : Nat × Int => b.2 ≤ a.2) _).mem_iff.mp hp
  exact List.fst_lt_of_mem_enum hp'

/-! ## Truncation lemmas -/

theorem applyTopN_sublist (top_n : Option Int) (l : List (Nat × Int)) :
    List.Sublist (applyTopN top_n l) l := by
  cases top_n with
  | none => exact List.Sublist.refl l
  | some t =>
    simp only [applyTopN]
    split
    · unfold pySliceTo
      split <;> exact List.take_sublist _ _
    · exact List.Sublist.refl l

theorem mem_of_mem_applyTopN {p : Nat × Int} {top_n : Option Int}
    {l : List (Nat × Int)} (hp : p ∈ applyTopN top_n l) : p ∈ l :=
  (applyTopN_sublist top_n l).subset hp

theorem length_applyTopN_none (l : List (Nat × Int)) :
    (applyTopN none l).length = l.length := rfl

theorem length_applyTopN_pos {t : Int} (ht : 0 < t) (l : List (Nat × Int)) :
    (applyTopN (some t) l).length = min t.toNat l.length := by
  have h0 : t ≠ 0 := ne_of_gt ht
  simp [applyTopN, pySliceTo, h0, le_of_lt ht, List.length_take]

theorem applyTopN_zero (l : List (Nat × Int)) : applyTopN (some 0) l = l := by
  simp [applyTopN]

/-! ## Result-building lemmas -/

theorem buildResults_eq_ok {documents : List String} {pairs : List (Nat × Int)}
    (h : ∀ p ∈ pairs, p.1 < documents.length) :
    buildResults documents pairs =
      Except.ok (pairs.map fun p => ⟨p.1, p.2, documents.getD p.1 ""⟩) := by
  unfold buildResults
  rw [if_pos]
  exact List.all_eq_true.mpr fun p hp => decide_eq_true (h p hp)

theorem buildResults_ok_inv {documents : List String} {pairs : List (Nat × Int)}
    {results : List RerankEntry}
    (h : buildResults documents pairs = Except.ok results) :
    results = pairs.map (fun p => ⟨p.1, p.2, documents.getD p.1 ""⟩) ∧
      ∀ p ∈ pairs, p.1 < documents.length := by
  unfold buildResults at h
  split at h
  · rename_i hall
    refine ⟨(Except.ok.inj h).symm, ?_⟩
    intro p hp
    exact of_decide_eq_true (List.all_eq_true.mp hall p hp)
  · cases h

theorem rerankCore_eq_ok {scores : List Int} {documents : List String}
    (top_n : Option Int) (h : scores.length = documents.length) :
    rerankCore scores documents top_n =
      Except.ok ((applyTopN top_n (sortScoresDesc scores)).map
        fun p => ⟨p.1, p.2, documents.getD p.1 ""⟩) := by
  apply buildResults_eq_ok
  intro p hp
  have := fst_lt_length_of_mem_sortScoresDesc (mem_of_mem_applyTopN hp)
  omega

/-! ## Interleaving model of the presence-check-guarded lazy load

`get_fastembed_model` (embed-server.py lines 81-89) and `get_model` of the
split services guard loading only with a dictionary/None presence check.
The server runs threaded (`threaded=True` / gthread workers), so two
requests for the same uncached key interleave.  One caller is modelled as
three atomic steps on the shared state: the presence check, the loader
invocation, and the store. -/

/-- Program counter of one caller of the get-or-load routine. -/
inductive TPC where
  | start
  | loading
  | storing (m : Nat)
  | done (m : Nat)
deriving Repr, DecidableEq

/-- Shared state for one model key: the cache slot, the number of loader
invocations so far, and the two callers' program counters. -/
structure ConcState where
  cache : Option Nat
  loadCount : Nat
  t0 : TPC
  t1 : TPC
deriving Repr, DecidableEq

/-- Both callers about to run the presence check on an empty cache. -/
def ConcState.init : ConcState := ⟨none, 0, .start, .start⟩

/-- One atomic step of one caller; the loader deterministically returns
the handle `7` (a fresh model instance). -/
def stepThread (cache : Option Nat) (loadCount : Nat) : TPC → TPC × Option Nat × Nat
  | .start =>
    match cache with
    | some m => (.done m, cache, loadCount)
    | none => (.loading, cache, loadCount)
  | .loading => (.storing 7, cache, loadCount + 1)
  | .storing m => (.done m, some m, loadCount)
  | .done m => (.done m, cache, loadCount)

/-- Interleaving step: `who = false` steps caller 0, `who = true` caller 1. -/
def step (s : ConcState) (who : Bool) : ConcState :=
  if who then
    match stepThread s.cache s.loadCount s.t1 with
    | (t, c, n) => ⟨c, n, s.t0, t⟩
  else
    match stepThread s.cache s.loadCount s.t0 with
    | (t, c, n) => ⟨c, n, t, s.t1⟩

/-- Run a schedule (a list of choices of which caller steps next). -/
def run (sched : List Bool) (s : ConcState) : ConcState :=
  sched.foldl step s

/-! ## Concrete oracle instantiations (used to evaluate the handlers) -/

/-- Oracles over `Nat` model handles in which every external call succeeds:
each embedding is 2-dimensional and each document scores `9`. -/
def extOk : Ext Nat where
  textEmbedding := fun _ => .ok 1
  sentenceTransformer := fun _ _ => .ok 2
  textCrossEncoder := fun _ => .ok 3
  crossEncoder := fun _ _ => .ok 4
  feEmbed := fun _ ts => .ok (ts.map (fun _ => [5, 6]))
  stEncode := fun _ _ _ => .ok [7, 8]
  stEncodeBatch := fun _ ts _ => .ok (ts.map (fun _ => [7, 8]))
  feRerank := fun _ _ ds => .ok (ds.map (fun _ => 9))
  stPredict := fun _ ps => .ok (ps.map (fun _ => 9))

/-- Oracles in which every external call raises. -/
def extFail : Ext Nat where
  textEmbedding := fun _ => .error "boom-load"
  sentenceTransformer := fun _ _ => .error "boom-load"
  textCrossEncoder := fun _ => .error "boom-load"
  crossEncoder := fun _ _ => .error "boom-load"
  feEmbed := fun _ _ => .error "boom-infer"
  stEncode := fun _ _ _ => .error "boom-infer"
  stEncodeBatch := fun _ _ _ => .error "boom-infer"
  feRerank := fun _ _ _ => .error "boom-infer"
  stPredict := fun _ _ => .error "boom-infer"

/-- HTTP status of a handler result (200 for a success body). -/
def statusOf {R : Type} : Except ErrResp R → Nat
  | .ok _ => 200
  | .error e => e.status

/-- Storing a key absent from an association list makes lookup find it. -/
theorem lookup_append_single {M : Type} (l : List (String × M)) (k : String) (m : M)
    (h : l.lookup k = none) : (l ++ [(k, m)]).lookup k = some m := by
  rw [List.lookup_append, h]
  simp

/-! ## Exhaustive case analyses of the cache getters -/

theorem gfm_cases {M : Type} (ext : Ext M) (st : ServerState M) (name : String) :
    (∃ m, st.fastembed_models.lookup name = some m ∧
       get_fastembed_model ext st name = ⟨.ok m, st, []⟩) ∨
    (st.fastembed_models.lookup name = none ∧ name ∉ FASTEMBED_SUPPORTED ∧
       get_fastembed_model ext st name =
         ⟨.error ("Fastembed does not support " ++ name), st, []⟩) ∨
    (∃ e, st.fastembed_models.lookup name = none ∧ name ∈ FASTEMBED_SUPPORTED ∧
       ext.textEmbedding name = .error e ∧
       get_fastembed_model ext st name = ⟨.error e, st, [.load "TextEmbedding" name]⟩) ∨
    (∃ m, st.fastembed_models.lookup name = none ∧ name ∈ FASTEMBED_SUPPORTED ∧
       ext.textEmbedding name = .ok m ∧
       get_fastembed_model ext st name =
         ⟨.ok m, { st with fastembed_models := st.fastembed_models ++ [(name, m)] },
          [.load "TextEmbedding" name]⟩) := by
  cases hx : st.fastembed_models.lookup name with
  | some m => exact Or.inl ⟨m, rfl, by simp [get_fastembed_model, hx]⟩
  | none =>
    by_cases hsup : name ∈ FASTEMBED_SUPPORTED
    · cases hl : ext.textEmbedding name with
      | error e =>
        exact Or.inr (Or.inr (Or.inl ⟨e, rfl, hsup, rfl,
          by simp [get_fastembed_model, hx, hsup, hl]⟩))
      | ok m =>
        exact Or.inr (Or.inr (Or.inr ⟨m, rfl, hsup, rfl,
          by simp [get_fastembed_model, hx, hsup, hl]⟩))
    · exact Or.inr (Or.inl ⟨rfl, hsup, by simp [get_fastembed_model, hx, hsup]⟩)

theorem gsm_cases {M : Type} (ext : Ext M) (st : ServerState M) (name : String)
    (trust : Bool) :
    (∃ m, st.st_models.lookup name = some m ∧
       get_st_model ext st name trust = ⟨.ok m, st, []⟩) ∨
    (∃ e, st.st_models.lookup name = none ∧
       ext.sentenceTransformer name trust = .error e ∧
       get_st_model ext st name trust =
         ⟨.error e, st, [.load "SentenceTransformer" name]⟩) ∨
    (∃ m, st.st_models.lookup name = none ∧
       ext.sentenceTransformer name trust = .ok m ∧
       get_st_model ext st name trust =
         ⟨.ok m, { st with st_models := st.st_models ++ [(name, m)] },
          [.load "SentenceTransformer" name]⟩) := by
  cases hx : st.st_models.lookup name with
  | some m => exact Or.inl ⟨m, rfl, by simp [get_st_model, hx]⟩
  | none =>
    cases hl : ext.sentenceTransformer name trust with
    | error e => exact Or.inr (Or.inl ⟨e, rfl, rfl, by simp [get_st_model, hx, hl]⟩)
    | ok m => exact Or.inr (Or.inr ⟨m, rfl, rfl, by simp [get_st_model, hx, hl]⟩)

theorem grm_cases {M : Type} (ext : Ext M) (st : ServerState M)
    (method name : String) (trust : Bool) :
    (∃ m, st.reranker_models.lookup (method ++ ":" ++ name) = some m ∧
       get_reranker_model ext st method name trust = ⟨.ok m, st, []⟩) ∨
    (st.reranker_models.lookup (method ++ ":" ++ name) = none ∧
       method = "fastembed" ∧ name ∉ RERANKER_SUPPORTED_fastembed ∧
       get_reranker_model ext st method name trust =
         ⟨.error ("Fastembed reranker does not support " ++ name), st, []⟩) ∨
    (∃ e, st.reranker_models.lookup (method ++ ":" ++ name) = none ∧
       method = "fastembed" ∧ name ∈ RERANKER_SUPPORTED_fastembed ∧
       ext.textCrossEncoder name = .error e ∧
       get_reranker_model ext st method name trust =
         ⟨.error e, st, [.load "TextCrossEncoder" name]⟩) ∨
    (∃ m, st.reranker_models.lookup (method ++ ":" ++ name) = none ∧
       method = "fastembed" ∧ name ∈ RERANKER_SUPPORTED_fastembed ∧
       ext.textCrossEncoder name = .ok m ∧
       get_reranker_model ext st method name trust =
         ⟨.ok m, { st with reranker_models :=
             st.reranker_models ++ [(method ++ ":" ++ name, m)] },
          [.load "TextCrossEncoder" name]⟩) ∨
    (∃ e, st.reranker_models.lookup (method ++ ":" ++ name) = none ∧
       method ≠ "fastembed" ∧ method = "sentence-transformers" ∧
       ext.crossEncoder name trust = .error e ∧
       get_reranker_model ext st method name trust =
         ⟨.error e, st, [.load "CrossEncoder" name]⟩) ∨
    (∃ m, st.reranker_models.lookup (method ++ ":" ++ name) = none ∧
       method ≠ "fastembed" ∧ method = "sentence-transformers" ∧
       ext.crossEncoder name trust = .ok m ∧
       get_reranker_model ext st method name trust =
         ⟨.ok m, { st with reranker_models :=
             st.reranker_models ++ [(method ++ ":" ++ name, m)] },
          [.load "CrossEncoder" name]⟩) ∨
    (st.reranker_models.lookup (method ++ ":" ++ name) = none ∧
       method ≠ "fastembed" ∧ method ≠ "sentence-transformers" ∧
       get_reranker_model ext st method name trust =
         ⟨.error ("Unknown reranker method: " ++ method), st, []⟩) := by
  cases hx : st.reranker_models.lookup (method ++ ":" ++ name) with
  | some m =>
    refine Or.inl ⟨m, rfl, ?_⟩
    have hx2 : st.reranker_models.lookup (method ++ ":" ++ name) = some m := hx
    simp only [get_reranker_model]
    rw [hx2]
  | none =>
    by_cases hfe : method = "fastembed"
    · subst hfe
      have hx2 : List.lookup ("fastembed:" ++ name) st.reranker_models = none := by
        simpa using hx
      by_cases hsup : name ∈ RERANKER_SUPPORTED_fastembed
      · cases hl : ext.textCrossEncoder name with
        | error e =>
          exact Or.inr (Or.inr (Or.inl ⟨e, rfl, rfl, hsup, rfl,
            by simp [get_reranker_model, hx2, hsup, hl]⟩))
        | ok m =>
          exact Or.inr (Or.inr (Or.inr (Or.inl ⟨m, rfl, rfl, hsup, rfl,
            by simp [get_reranker_model, hx2, hsup, hl]⟩)))
      · exact Or.inr (Or.inl ⟨rfl, rfl, hsup,
          by simp [get_reranker_model, hx2, hsup]⟩)
    · by_cases hst : method = "sentence-transformers"
      · subst hst
        have hx2 : List.lookup ("sentence-transformers:" ++ name) st.reranker_models = none := by
          simpa using hx
        cases hl : ext.crossEncoder name trust with
        | error e =>
          exact Or.inr (Or.inr (Or.inr (Or.inr (Or.inl ⟨e, rfl, hfe, rfl, rfl,
            by simp [get_reranker_model, hx2, hfe, hl]⟩))))
        | ok m =>
          exact Or.inr (Or.inr (Or.inr (Or.inr (Or.inr (Or.inl ⟨m, rfl, hfe, rfl, rfl,
            by simp [get_reranker_model, hx2, hfe, hl]⟩)))))
      · refine Or.inr (Or.inr (Or.inr (Or.inr (Or.inr (Or.inr ⟨rfl, hfe, hst, ?_⟩)))))
        simp only [get_reranker_model]
        rw [hx]
        simp [hfe, hst]

theorem gfm_ok_lookup {M : Type} (ext : Ext M) (st : ServerState M) (name : String)
    (m : M) (h : (get_fastembed_model ext st name).res = .ok m) :
    (get_fastembed_model ext st name).state.fastembed_models.lookup name = some m := by
  rcases gfm_cases ext st name with ⟨m0, hx, heq⟩ | ⟨hx, hsup, heq⟩ |
    ⟨e, hx, hsup, hl, heq⟩ | ⟨m0, hx, hsup, hl, heq⟩
  · rw [heq] at h ⊢
    simp at h ⊢
    rw [← h]
    exact hx
  · rw [heq] at h
    simp at h
  · rw [heq] at h
    simp at h
  · rw [heq] at h ⊢
    simp at h ⊢
    rw [← h]
    exact lookup_append_single _ _ _ hx


theorem gfm_error_state {M : Type} (ext : Ext M) (st : ServerState M) (name e : String)
    (h : (get_fastembed_model ext st name).res = .error e) :
    (get_fastembed_model ext st name).state = st := by
  rcases gfm_cases ext st name with ⟨m0, hx, heq⟩ | ⟨hx, hsup, heq⟩ |
    ⟨e0, hx, hsup, hl, heq⟩ | ⟨m0, hx, hsup, hl, heq⟩ <;>
    (rw [heq] at h ⊢; try simp_all)

theorem grm_error_state {M : Type} (ext : Ext M) (st : ServerState M)
    (method name : String) (trust : Bool) (e : String)
    (h : (get_reranker_model ext st method name trust).res = .error e) :
    (get_reranker_model ext st method name trust).state = st := by
  rcases grm_cases ext st method name trust with ⟨m0, hx, heq⟩ | ⟨hx, hm, hns, heq⟩ |
    ⟨e0, hx, hm, hsup, hl, heq⟩ | ⟨m0, hx, hm, hsup, hl, heq⟩ |
    ⟨e0, hx, hne, hst, hl, heq⟩ | ⟨m0, hx, hne, hst, hl, heq⟩ |
    ⟨hx, hne, hnst, heq⟩ <;>
    (rw [heq] at h ⊢; try simp_all)

theorem grm_ok_lookup {M : Type} (ext : Ext M) (st : ServerState M)
    (method name : String) (trust : Bool) (m : M)
    (h : (get_reranker_model ext st method name trust).res = .ok m) :
    (get_reranker_model ext st method name trust).state.reranker_models.lookup
      (method ++ ":" ++ name) = some m := by
  rcases grm_cases ext st method name trust with ⟨m0, hx, heq⟩ | ⟨hx, hm, hns, heq⟩ |
    ⟨e0, hx, hm, hsup, hl, heq⟩ | ⟨m0, hx, hm, hsup, hl, heq⟩ |
    ⟨e0, hx, hne, hst, hl, heq⟩ | ⟨m0, hx, hne, hst, hl, heq⟩ |
    ⟨hx, hne, hnst, heq⟩
  · rw [heq] at h ⊢
    simp at h ⊢
    rw [← h]
    exact hx
  · rw [heq] at h
    simp at h
  · rw [heq] at h
    simp at h
  · rw [heq] at h ⊢
    simp at h ⊢
    rw [← h]
    exact lookup_append_single _ _ _ hx
  · rw [heq] at h
    simp at h
  · rw [heq] at h ⊢
    simp at h ⊢
    rw [← h]
    exact lookup_append_single _ _ _ hx
  · rw [heq] at h
    simp at h

/-! ## Claim theorems -/

/-- **C1, counterexample.** The claim says the loader is invoked at most once
per key across concurrent callers.  In the interleaving model of the
presence-check-guarded load (`get_fastembed_model`, `get_model`), the
schedule check₀, check₁, load₀, store₀, load₁, store₁ makes both callers
miss the presence check and the loader runs twice (`loadCount = 2`). -/
theorem c1_counterexample :
    run [false, true, false, false, true, true] ConcState.init =
      ⟨some 7, 2, .done 7, .done 7⟩ := by decide

/-- **C1 (amended).** The loader is invoked at most once per key only under
serial execution: when either caller runs to completion before the other
starts, the second caller's presence check hits the cache and exactly one
load occurs.  Concurrent callers do not wait on an in-flight load, and an
interleaving of two callers can invoke the loader twice (see the
counterexample). -/
theorem c1_serial_single_load :
    run [false, false, false, true] ConcState.init = ⟨some 7, 1, .done 7, .done 7⟩ ∧
    run [true, true, true, false] ConcState.init = ⟨some 7, 1, .done 7, .done 7⟩ := by
  decide

/-- **C2, counterexample.** For one document and `topN = 0` — a given
`topN` — the claim demands `min(1, 0) = 0` result entries, but `if top_n:`
treats `0` as absent, skips truncation, and the response has 1 entry. -/
theorem c2_counterexample :
    rerankCore [(5 : Int)] ["a"] (some 0) = Except.ok [⟨0, 5, "a"⟩] ∧
    ([(⟨0, 5, "a"⟩ : RerankEntry)] : List RerankEntry).length ≠ min 1 0 := by
  decide

/-- **C2 (amended).** For a rerank request whose cross-encoder returns one
score per document, the pipeline succeeds and the results list has
`documents.length` entries when `topN` is absent and
`min(documents.length, topN)` entries when `topN` is given **and
positive** (`topN = 0` is falsy and treated as absent — see the
counterexample); entries are sorted by score descending and each entry's
`document` field is `documents[entry.index]`. -/
theorem c2_rerank_shape :
    ∀ (scores : List Int) (documents : List String) (top_n : Option Int),
      scores.length = documents.length →
      ∃ results, rerankCore scores documents top_n = Except.ok results ∧
        (top_n = none → results.length = documents.length) ∧
        (∀ t : Int, top_n = some t → 0 < t →
          results.length = min documents.length t.toNat) ∧
        results.Pairwise (fun e1 e2 => e2.score ≤ e1.score) ∧
        (∀ e ∈ results, e.index < documents.length ∧
          documents.getD e.index "" = e.document) := by
  intro scores documents top_n h
  refine ⟨_, rerankCore_eq_ok top_n h, ?_, ?_, ?_, ?_⟩
  · rintro rfl
    simp [List.length_map, length_applyTopN_none, length_sortScoresDesc, h]
  · rintro t rfl ht
    rw [List.length_map, length_applyTopN_pos ht, length_sortScoresDesc, h,
      Nat.min_comm]
  · exact List.pairwise_map.mpr
      (List.Pairwise.sublist (applyTopN_sublist top_n _)
        (sortScoresDesc_pairwise_desc scores))
  · intro e he
    obtain ⟨p, hp, rfl⟩ := List.mem_map.mp he
    exact ⟨h ▸ fst_lt_length_of_mem_sortScoresDesc (mem_of_mem_applyTopN hp), rfl⟩

/-- Witness for C2 (amended) at scores `[3, 7]`, documents `["a", "b"]`,
`topN = 1`. -/
theorem c2_rerank_shape_witness :
    ∃ results, rerankCore [(3 : Int), 7] ["a", "b"] (some 1) = Except.ok results ∧
      ((some (1 : Int)) = none → results.length = (["a", "b"] : List String).length) ∧
      (∀ t : Int, (some (1 : Int)) = some t → 0 < t →
        results.length = min (["a", "b"] : List String).length t.toNat) ∧
      results.Pairwise (fun e1 e2 => e2.score ≤ e1.score) ∧
      (∀ e ∈ results, e.index < (["a", "b"] : List String).length ∧
        (["a", "b"] : List String).getD e.index "" = e.document) :=
  c2_rerank_shape [3, 7] ["a", "b"] (some 1) (by decide)

/-- **C9.** When two documents receive equal scores, their result entries
appear in ascending original-index order: the stable descending sort of the
enumeration breaks ties by ascending index, and truncation and
entry-building preserve pairwise order. -/
theorem c9_ties_ascending_index :
    ∀ (scores : List Int) (documents : List String) (top_n : Option Int)
      (results : List RerankEntry),
      rerankCore scores documents top_n = Except.ok results →
      results.Pairwise (fun e1 e2 => e1.score = e2.score → e1.index < e2.index) := by
  intro scores documents top_n results h
  obtain ⟨hres, _⟩ := buildResults_ok_inv h
  subst hres
  refine List.pairwise_map.mpr ?_
  have hp := List.Pairwise.sublist (applyTopN_sublist top_n _)
    (sortScoresDesc_pairwise_strict scores)
  refine hp.imp ?_
  rintro a b (hlt | ⟨heq, hidx⟩) hscore
  · exact absurd hscore (ne_of_gt hlt)
  · exact hidx

/-- Witness for C9 at the tied scores `[3, 3]`. -/
theorem c9_ties_witness :
    ([⟨0, 3, "a"⟩, ⟨1, 3, "b"⟩] : List RerankEntry).Pairwise
      (fun e1 e2 => e1.score = e2.score → e1.index < e2.index) :=
  c9_ties_ascending_index [3, 3] ["a", "b"] none
    [⟨0, 3, "a"⟩, ⟨1, 3, "b"⟩] (by decide)

/-- **C10.** A present-but-falsy `top_n` (`0` or null) skips truncation and
the response contains all `N` entries exactly as if `top_n` were omitted;
the slice is applied only for truthy (nonzero) `top_n`. -/
theorem c10_topn_falsy_skips_truncation :
    (∀ (scores : List Int) (documents : List String),
      rerankCore scores documents (some 0) = rerankCore scores documents none) ∧
    (∀ (scores : List Int) (documents : List String) (t : Int), t ≠ 0 →
      rerankCore scores documents (some t) =
        buildResults documents (pySliceTo t (sortScoresDesc scores))) ∧
    (∀ (scores : List Int) (documents : List String),
      scores.length = documents.length →
      ∃ results, rerankCore scores documents (some 0) = Except.ok results ∧
        results.length = documents.length) := by
  refine ⟨?_, ?_, ?_⟩
  · intro scores documents
    unfold rerankCore
    rw [applyTopN_zero]
    rfl
  · intro scores documents t ht
    unfold rerankCore
    simp [applyTopN, ht]
  · intro scores documents h
    refine ⟨_, rerankCore_eq_ok (some 0) h, ?_⟩
    rw [List.length_map, applyTopN_zero, length_sortScoresDesc, h]

/-- Witness for C10 at scores `[1]`, documents `["a"]`. -/
theorem c10_topn_witness :
    rerankCore [(1 : Int)] ["a"] (some 0) = rerankCore [(1 : Int)] ["a"] none ∧
    rerankCore [(1 : Int)] ["a"] (some 1) =
      buildResults ["a"] (pySliceTo 1 (sortScoresDesc [(1 : Int)])) ∧
    ∃ results, rerankCore [(1 : Int)] ["a"] (some 0) = Except.ok results ∧
      results.length = (["a"] : List String).length :=
  ⟨c10_topn_falsy_skips_truncation.1 [1] ["a"],
   c10_topn_falsy_skips_truncation.2.1 [1] ["a"] 1 (by decide),
   c10_topn_falsy_skips_truncation.2.2 [1] ["a"] (by decide)⟩

/-- **C5.** A cache entry exists iff a load completed successfully: a failed
load returns the error and leaves the cache unchanged (so the key is
re-attemptable), a successful load stores exactly the new entry, any
successful get leaves the model retrievable under its key, and a forced
failure followed by a forced success populates the cache. -/
theorem c5_cache_iff_successful_load {M : Type} :
    (∀ (ext : Ext M) (st : ServerState M) (name e : String),
      st.fastembed_models.lookup name = none → name ∈ FASTEMBED_SUPPORTED →
      ext.textEmbedding name = .error e →
      get_fastembed_model ext st name =
        ⟨.error e, st, [.load "TextEmbedding" name]⟩) ∧
    (∀ (ext : Ext M) (st : ServerState M) (name : String) (m : M),
      st.fastembed_models.lookup name = none → name ∈ FASTEMBED_SUPPORTED →
      ext.textEmbedding name = .ok m →
      get_fastembed_model ext st name =
        ⟨.ok m, { st with fastembed_models := st.fastembed_models ++ [(name, m)] },
         [.load "TextEmbedding" name]⟩) ∧
    (∀ (ext : Ext M) (st : ServerState M) (name : String) (m : M),
      (get_fastembed_model ext st name).res = .ok m →
      (get_fastembed_model ext st name).state.fastembed_models.lookup name = some m) ∧
    (∀ (ext : Ext M) (st : ServerState M) (name e : String),
      (get_fastembed_model ext st name).res = .error e →
      (get_fastembed_model ext st name).state = st) ∧
    (∀ (extF extS : Ext M) (st : ServerState M) (name e : String) (m : M),
      st.fastembed_models.lookup name = none → name ∈ FASTEMBED_SUPPORTED →
      extF.textEmbedding name = .error e → extS.textEmbedding name = .ok m →
      get_fastembed_model extS (get_fastembed_model extF st name).state name =
        ⟨.ok m, { st with fastembed_models := st.fastembed_models ++ [(name, m)] },
         [.load "TextEmbedding" name]⟩) ∧
    (∀ (ext : Ext M) (st : ServerState M) (method name : String) (trust : Bool)
       (e : String),
      (get_reranker_model ext st method name trust).res = .error e →
      (get_reranker_model ext st method name trust).state = st) ∧
    (∀ (ext : Ext M) (st : ServerState M) (method name : String) (trust : Bool)
       (m : M),
      (get_reranker_model ext st method name trust).res = .ok m →
      (get_reranker_model ext st method name trust).state.reranker_models.lookup
        (method ++ ":" ++ name) = some m) := by
  refine ⟨?_, ?_, ?_, ?_, ?_, ?_, ?_⟩
  · intro ext st name e hmiss hsup hload
    simp [get_fastembed_model, hmiss, hsup, hload]
  · intro ext st name m hmiss hsup hload
    simp [get_fastembed_model, hmiss, hsup, hload]
  · exact gfm_ok_lookup
  · exact gfm_error_state
  · intro extF extS st name e m hmiss hsup hloadF hloadS
    have h1 : get_fastembed_model extF st name =
        ⟨.error e, st, [.load "TextEmbedding" name]⟩ := by
      simp [get_fastembed_model, hmiss, hsup, hloadF]
    rw [h1]
    simp [get_fastembed_model, hmiss, hsup, hloadS]
  · exact grm_error_state
  · exact grm_ok_lookup

/-- Witness for C5, evaluated at `BAAI/bge-small-en-v1.5` (supported) with a
failing and a succeeding loader on the empty cache. -/
theorem c5_cache_witness :
    get_fastembed_model extFail (ServerState.empty Nat) "BAAI/bge-small-en-v1.5" =
      ⟨.error "boom-load", ServerState.empty Nat,
       [.load "TextEmbedding" "BAAI/bge-small-en-v1.5"]⟩ ∧
    get_fastembed_model extOk (ServerState.empty Nat) "BAAI/bge-small-en-v1.5" =
      ⟨.ok 1, ⟨[("BAAI/bge-small-en-v1.5", 1)], [], []⟩,
       [.load "TextEmbedding" "BAAI/bge-small-en-v1.5"]⟩ ∧
    (get_fastembed_model extOk (ServerState.empty Nat)
        "BAAI/bge-small-en-v1.5").state.fastembed_models.lookup
      "BAAI/bge-small-en-v1.5" = some 1 ∧
    (get_fastembed_model extFail (ServerState.empty Nat)
        "BAAI/bge-small-en-v1.5").state = ServerState.empty Nat ∧
    get_fastembed_model extOk
      (get_fastembed_model extFail (ServerState.empty Nat)
        "BAAI/bge-small-en-v1.5").state "BAAI/bge-small-en-v1.5" =
      ⟨.ok 1, ⟨[("BAAI/bge-small-en-v1.5", 1)], [], []⟩,
       [.load "TextEmbedding" "BAAI/bge-small-en-v1.5"]⟩ ∧
    (get_reranker_model extFail (ServerState.empty Nat) "fastembed"
        "BAAI/bge-reranker-base" false).state = ServerState.empty Nat ∧
    (get_reranker_model extOk (ServerState.empty Nat) "fastembed"
        "BAAI/bge-reranker-base" false).state.reranker_models.lookup
      ("fastembed" ++ ":" ++ "BAAI/bge-reranker-base") = some 3 :=
  ⟨c5_cache_iff_successful_load.1 extFail _ _ _ (by decide) (by decide) rfl,
   c5_cache_iff_successful_load.2.1 extOk _ _ 1 (by decide) (by decide) rfl,
   c5_cache_iff_successful_load.2.2.1 extOk _ _ 1 (by decide),
   c5_cache_iff_successful_load.2.2.2.1 extFail _ _ "boom-load" (by decide),
   c5_cache_iff_successful_load.2.2.2.2.1 extFail extOk _ _ "boom-load" 1
     (by decide) (by decide) rfl rfl,
   c5_cache_iff_successful_load.2.2.2.2.2.1 extFail _ "fastembed" _ false
     "boom-load" (by decide),
   c5_cache_iff_successful_load.2.2.2.2.2.2 extOk _ "fastembed" _ false 3
     (by decide)⟩

/-- **C4, counterexample.** The claim says a model name outside the
supported-model set never reaches the load path.  `get_st_model` consults no
supported set: for a name in none of the tables, the `SentenceTransformer`
constructor is invoked (a load event is emitted). -/
theorem c4_counterexample :
    (get_st_model extFail (ServerState.empty Nat) "totally-unknown-model"
        false).events = [.load "SentenceTransformer" "totally-unknown-model"] ∧
    "totally-unknown-model" ∉ FASTEMBED_SUPPORTED ∧
    "totally-unknown-model" ∉ RERANKER_SUPPORTED_fastembed ∧
    "totally-unknown-model" ∉ RERANKER_SUPPORTED_st := by decide

/-- **C4 (amended).** Only the fastembed paths consult their supported sets
before a cache-miss load: `get_fastembed_model` and the fastembed branch of
`get_reranker_model` reject an unsupported name without invoking the
constructor, while `get_st_model` and the sentence-transformers branch of
`get_reranker_model` invoke the constructor for every uncached name,
consulting no supported set. -/
theorem c4_supported_set_consultation {M : Type} :
    (∀ (ext : Ext M) (st : ServerState M) (name : String),
      st.fastembed_models.lookup name = none → name ∉ FASTEMBED_SUPPORTED →
      get_fastembed_model ext st name =
        ⟨.error ("Fastembed does not support " ++ name), st, []⟩) ∧
    (∀ (ext : Ext M) (st : ServerState M) (name : String) (trust : Bool),
      st.reranker_models.lookup ("fastembed" ++ ":" ++ name) = none →
      name ∉ RERANKER_SUPPORTED_fastembed →
      get_reranker_model ext st "fastembed" name trust =
        ⟨.error ("Fastembed reranker does not support " ++ name), st, []⟩) ∧
    (∀ (ext : Ext M) (st : ServerState M) (name : String) (trust : Bool),
      st.st_models.lookup name = none →
      (get_st_model ext st name trust).events =
        [.load "SentenceTransformer" name]) ∧
    (∀ (ext : Ext M) (st : ServerState M) (name : String) (trust : Bool),
      st.reranker_models.lookup ("sentence-transformers" ++ ":" ++ name) = none →
      (get_reranker_model ext st "sentence-transformers" name trust).events =
        [.load "CrossEncoder" name]) := by
  refine ⟨?_, ?_, ?_, ?_⟩
  · intro ext st name hmiss hsup
    simp [get_fastembed_model, hmiss, hsup]
  · intro ext st name trust hmiss hsup
    have h2 : List.lookup ("fastembed:" ++ name) st.reranker_models = none := by
      simpa using hmiss
    simp [get_reranker_model, h2, hsup]
  · intro ext st name trust hmiss
    rcases gsm_cases ext st name trust with ⟨m, hx, heq⟩ | ⟨e, hx, hl, heq⟩ |
      ⟨m, hx, hl, heq⟩
    · rw [hmiss] at hx
      cases hx
    · rw [heq]
    · rw [heq]
  · intro ext st name trust hmiss
    rcases grm_cases ext st "sentence-transformers" name trust with
      ⟨m, hx, heq⟩ | ⟨hx, hm, hns, heq⟩ | ⟨e, hx, hm, hsup, hl, heq⟩ |
      ⟨m, hx, hm, hsup, hl, heq⟩ | ⟨e, hx, hne, hst, hl, heq⟩ |
      ⟨m, hx, hne, hst, hl, heq⟩ | ⟨hx, hne, hnst, heq⟩
    · rw [hmiss] at hx
      cases hx
    · exact absurd hm (by decide)
    · exact absurd hm (by decide)
    · exact absurd hm (by decide)
    · rw [heq]
    · rw [heq]
    · exact absurd rfl hnst

/-- Witness for C4 (amended): the fastembed paths reject `nope-model`
without a load event; the sentence-transformers paths load it. -/
theorem c4_consultation_witness :
    get_fastembed_model extOk (ServerState.empty Nat) "nope-model" =
      ⟨.error ("Fastembed does not support " ++ "nope-model"),
       ServerState.empty Nat, []⟩ ∧
    get_reranker_model extOk (ServerState.empty Nat) "fastembed" "nope-model" false =
      ⟨.error ("Fastembed reranker does not support " ++ "nope-model"),
       ServerState.empty Nat, []⟩ ∧
    (get_st_model extOk (ServerState.empty Nat) "nope-model" false).events =
      [.load "SentenceTransformer" "nope-model"] ∧
    (get_reranker_model extOk (ServerState.empty Nat) "sentence-transformers"
        "nope-model" false).events = [.load "CrossEncoder" "nope-model"] :=
  ⟨c4_supported_set_consultation.1 extOk _ _ (by decide) (by decide),
   c4_supported_set_consultation.2.1 extOk _ _ false (by decide) (by decide),
   c4_supported_set_consultation.2.2.1 extOk _ _ false (by decide),
   c4_supported_set_consultation.2.2.2 extOk _ _ false (by decide)⟩

/-- **C3, counterexample.** The claim says a request naming an unsupported
model yields HTTP 400.  In `embed`, the unsupported-model `ValueError`
raised by `get_fastembed_model` is caught by the catch-all and mapped to
500, not 400. -/
theorem c3_counterexample :
    (embed extFail (ServerState.empty Nat)
        ⟨some "fastembed", some "unsupported-model-x", some "hi", false,
         none⟩).result =
      Except.error ⟨500, "Fastembed does not support unsupported-model-x"⟩ ∧
    (500 : Nat) ≠ 400 := by decide

/-- **C3 (amended).** A request naming an unsupported model is answered with
HTTP 500, not 400: the unsupported-model error raised inside the `try` is
handled by the same catch-all as load/inference failures.  Only
missing-field and unknown-method validation produce 400. -/
theorem c3_unsupported_model_maps_to_500 {M : Type} :
    (∀ (ext : Ext M) (st : ServerState M) (name text : String) (trust : Bool)
       (pn : Option String),
      name.isEmpty = false → text.isEmpty = false →
      st.fastembed_models.lookup name = none → name ∉ FASTEMBED_SUPPORTED →
      (embed ext st ⟨some "fastembed", some name, some text, trust, pn⟩).result =
        .error ⟨500, "Fastembed does not support " ++ name⟩) ∧
    (∀ (ext : Ext M) (st : ServerState M) (name : String) (texts : List String)
       (trust : Bool) (pn : Option String),
      name.isEmpty = false → texts.isEmpty = false →
      st.fastembed_models.lookup name = none → name ∉ FASTEMBED_SUPPORTED →
      (embed_batch ext st ⟨some "fastembed", some name, texts, trust,
          pn⟩).result =
        .error ⟨500, "Fastembed does not support " ++ name⟩) ∧
    (∀ (ext : Ext M) (st : ServerState M) (name query : String)
       (docs : List String) (tn : Option Int) (trust : Bool),
      name.isEmpty = false → query.isEmpty = false → docs.isEmpty = false →
      st.reranker_models.lookup ("fastembed" ++ ":" ++ name) = none →
      name ∉ RERANKER_SUPPORTED_fastembed →
      (rerank ext st ⟨some "fastembed", some name, some query, docs, tn,
          trust⟩).result =
        .error ⟨500, "Fastembed reranker does not support " ++ name⟩) := by
  have hfe : "fastembed".isEmpty = false := by decide
  refine ⟨?_, ?_, ?_⟩
  · intro ext st name text trust pn hname htext hmiss hsup
    simp [embed, truthy, hfe, hname, htext, get_fastembed_model, hmiss, hsup]
  · intro ext st name texts trust pn hname htexts hmiss hsup
    simp [embed_batch, truthy, hfe, hname, htexts, get_fastembed_model, hmiss,
      hsup]
  · intro ext st name query docs tn trust hname hquery hdocs hmiss hsup
    have h2 : List.lookup ("fastembed:" ++ name) st.reranker_models = none := by
      simpa using hmiss
    simp [rerank, truthy, hfe, hname, hquery, hdocs, get_reranker_model, h2,
      hsup]

/-- Witness for C3 (amended) at the unsupported name `nope-model`. -/
theorem c3_unsupported_witness :
    (embed extOk (ServerState.empty Nat)
        ⟨some "fastembed", some "nope-model", some "hi", false, none⟩).result =
      .error ⟨500, "Fastembed does not support " ++ "nope-model"⟩ ∧
    (embed_batch extOk (ServerState.empty Nat)
        ⟨some "fastembed", some "nope-model", ["x"], false, none⟩).result =
      .error ⟨500, "Fastembed does not support " ++ "nope-model"⟩ ∧
    (rerank extOk (ServerState.empty Nat)
        ⟨some "fastembed", some "nope-model", some "q", ["d"], none,
         false⟩).result =
      .error ⟨500, "Fastembed reranker does not support " ++ "nope-model"⟩ :=
  ⟨c3_unsupported_model_maps_to_500.1 extOk _ _ _ false none (by decide)
     (by decide) (by decide) (by decide),
   c3_unsupported_model_maps_to_500.2.1 extOk _ _ ["x"] false none (by decide)
     (by decide) (by decide) (by decide),
   c3_unsupported_model_maps_to_500.2.2 extOk _ _ _ ["d"] none false (by decide)
     (by decide) (by decide) (by decide) (by decide)⟩

/-- **C7.** A POST with a missing or empty required field is answered with
HTTP 400 and an error-message body; the cache state is unchanged and no
external call (model load or inference) is made for that request. -/
theorem c7_missing_fields_400 {M : Type} :
    (∀ (ext : Ext M) (st : ServerState M) (req : EmbedRequest),
      (truthy req.method && truthy req.model && truthy req.text) = false →
      embed ext st req =
        ⟨.error ⟨400, "Missing required fields: method, model, text"⟩, st, []⟩) ∧
    (∀ (ext : Ext M) (st : ServerState M) (req : BatchEmbedRequest),
      (truthy req.method && truthy req.model) = false ∨ req.texts = [] →
      embed_batch ext st req =
        ⟨.error ⟨400, "Missing required fields: method, model, texts"⟩, st, []⟩) ∧
    (∀ (ext : Ext M) (st : ServerState M) (req : RerankRequest),
      (truthy req.method && truthy req.model && truthy req.query) = false ∨
        req.documents = [] →
      rerank ext st req =
        ⟨.error ⟨400, "Missing required fields: method, model, query, documents"⟩,
         st, []⟩) ∧
    (∀ (load : Except String M)
       (oracle : M → String → List String → Except String (List Int))
       (st : Option M) (query : Option String) (documents : List String)
       (tn : Option Int),
      truthy query = false →
      svc_rerank load oracle st query documents tn =
        ⟨.error ⟨400, "Missing required field: query"⟩, st, []⟩) ∧
    (∀ (load : Except String M)
       (oracle : M → String → List String → Except String (List Int))
       (st : Option M) (query : Option String) (tn : Option Int),
      truthy query = true →
      svc_rerank load oracle st query [] tn =
        ⟨.error ⟨400, "Missing required field: documents"⟩, st, []⟩) ∧
    (∀ (load : Except String M)
       (oracle : M → List String → Except String (List (List Int)))
       (st : Option M),
      svc_embed_batch load oracle st [] =
        ⟨.error ⟨400, "Missing required field: texts"⟩, st, []⟩) := by
  refine ⟨?_, ?_, ?_, ?_, ?_, ?_⟩
  · intro ext st req h
    simp [embed, h]
  · intro ext st req h
    rcases h with h | h <;> simp [embed_batch, h]
  · intro ext st req h
    rcases h with h | h <;> simp [rerank, h]
  · intro load oracle st query documents tn h
    simp [svc_rerank, h]
  · intro load oracle st query tn h
    simp [svc_rerank, h]
  · intro load oracle st
    simp [svc_embed_batch]

/-- Witness for C7 at concrete invalid requests for all five endpoints. -/
theorem c7_missing_fields_witness :
    embed extOk (ServerState.empty Nat) ⟨none, none, none, false, none⟩ =
      ⟨.error ⟨400, "Missing required fields: method, model, text"⟩,
       ServerState.empty Nat, []⟩ ∧
    embed_batch extOk (ServerState.empty Nat)
        ⟨some "fastembed", some "m", [], false, none⟩ =
      ⟨.error ⟨400, "Missing required fields: method, model, texts"⟩,
       ServerState.empty Nat, []⟩ ∧
    rerank extOk (ServerState.empty Nat)
        ⟨some "fastembed", some "m", some "q", [], none, false⟩ =
      ⟨.error ⟨400, "Missing required fields: method, model, query, documents"⟩,
       ServerState.empty Nat, []⟩ ∧
    svc_rerank (.ok 3) extOk.feRerank none none ["d"] none =
      ⟨.error ⟨400, "Missing required field: query"⟩, none, []⟩ ∧
    svc_rerank (.ok 3) extOk.feRerank none (some "q") [] none =
      ⟨.error ⟨400, "Missing required field: documents"⟩, none, []⟩ ∧
    svc_embed_batch (.ok 1) extOk.feEmbed none [] =
      ⟨.error ⟨400, "Missing required field: texts"⟩, none, []⟩ :=
  ⟨c7_missing_fields_400.1 extOk _ _ (by decide),
   c7_missing_fields_400.2.1 extOk _ _ (Or.inr rfl),
   c7_missing_fields_400.2.2.1 extOk _ _ (Or.inr rfl),
   c7_missing_fields_400.2.2.2.1 _ _ _ _ ["d"] none (by decide),
   c7_missing_fields_400.2.2.2.2.1 _ _ _ _ none (by decide),
   c7_missing_fields_400.2.2.2.2.2 _ _ _⟩

/-- **C6.** For a batch-embed request with N texts whose model library call
returns one vector per text, all of dimension `d`, the response carries
exactly those N vectors in the library's (input) order with `count = N` and
`dimension = d` — for the combined server's fastembed branch and for the
split embed-service. -/
theorem c6_batch_shape {M : Type} :
    (∀ (ext : Ext M) (st : ServerState M) (req : BatchEmbedRequest) (m : M)
       (vecs : List (List Int)) (d : Nat),
      req.method = some "fastembed" → truthy req.model = true →
      req.texts.isEmpty = false →
      st.fastembed_models.lookup (req.model.getD "") = some m →
      ext.feEmbed m req.texts = .ok vecs →
      vecs.length = req.texts.length →
      (∀ v ∈ vecs, v.length = d) →
      embed_batch ext st req =
        ⟨.ok ⟨vecs, req.texts.length, d⟩, st, [.infer "embed"]⟩) ∧
    (∀ (load : Except String M)
       (oracle : M → List String → Except String (List (List Int)))
       (m : M) (texts : List String) (vecs : List (List Int)) (d : Nat),
      texts.isEmpty = false → oracle m texts = .ok vecs →
      vecs.length = texts.length → (∀ v ∈ vecs, v.length = d) →
      svc_embed_batch load oracle (some m) texts =
        ⟨.ok ⟨vecs, texts.length, d⟩, some m, [.infer "embed"]⟩) := by
  have hfe : "fastembed".isEmpty = false := by decide
  constructor
  · intro ext st req m vecs d hmethod hmodel htexts hlook horacle hlen hdim
    cases vecs with
    | nil =>
      exfalso
      rw [List.isEmpty_eq_false] at htexts
      exact htexts (List.length_eq_zero.mp hlen.symm)
    | cons v vs =>
      have hd : v.length = d := hdim v (List.mem_cons_self v vs)
      have ht1 : truthy (some "fastembed") = true := by decide
      simp [embed_batch, hmethod, ht1, hmodel, htexts,
        get_fastembed_model, hlook, horacle, hd, ← hlen]
  · intro load oracle m texts vecs d htexts horacle hlen hdim
    cases vecs with
    | nil =>
      exfalso
      rw [List.isEmpty_eq_false] at htexts
      exact htexts (List.length_eq_zero.mp hlen.symm)
    | cons v vs =>
      have hd : v.length = d := hdim v (List.mem_cons_self v vs)
      simp [svc_embed_batch, svc_get_model, htexts, horacle, hd, ← hlen]

/-- Witness for C6: two texts against a cached fastembed model and against
the split service, giving two 2-dimensional vectors. -/
theorem c6_batch_witness :
    embed_batch extOk
        (⟨[("intfloat/multilingual-e5-large", 1)], [], []⟩ : ServerState Nat)
        ⟨some "fastembed", some "intfloat/multilingual-e5-large", ["x", "y"],
         false, none⟩ =
      ⟨.ok ⟨[[5, 6], [5, 6]], 2, 2⟩,
       ⟨[("intfloat/multilingual-e5-large", 1)], [], []⟩, [.infer "embed"]⟩ ∧
    svc_embed_batch (.ok 1) extOk.feEmbed (some 1) ["x", "y"] =
      ⟨.ok ⟨[[5, 6], [5, 6]], 2, 2⟩, some 1, [.infer "embed"]⟩ :=
  ⟨c6_batch_shape.1 extOk _ _ 1 [[5, 6], [5, 6]] 2 rfl (by decide) (by decide)
     (by decide) (by decide) (by decide) (by decide),
   c6_batch_shape.2 (.ok 1) extOk.feEmbed 1 ["x", "y"] [[5, 6], [5, 6]] 2
     (by decide) (by decide) (by decide) (by decide)⟩

theorem embed_status_mem {M : Type} (ext : Ext M) (st : ServerState M)
    (req : EmbedRequest) :
    statusOf (embed ext st req).result = 200 ∨
    statusOf (embed ext st req).result = 400 ∨
    statusOf (embed ext st req).result = 500 := by
  simp only [embed]
  split
  · simp_all [statusOf]
  · split
    · rcases hg : get_fastembed_model ext st (req.model.getD "") with ⟨res, st1, ev⟩
      cases res with
      | error e => simp_all [statusOf]
      | ok m =>
        cases he : ext.feEmbed m [req.text.getD ""] with
        | error e => simp_all [statusOf]
        | ok embs =>
          cases embs with
          | nil => simp_all [statusOf]
          | cons emb tl => simp_all [statusOf]
    · split
      · rcases hg : get_st_model ext st (req.model.getD "") req.trust_remote_code
          with ⟨res, st1, ev⟩
        cases res with
        | error e => simp_all [statusOf]
        | ok m =>
          cases he : ext.stEncode m (req.text.getD "")
              (if truthy req.prompt_name then req.prompt_name else none) with
          | error e => simp_all [statusOf]
          | ok emb => simp_all [statusOf]
      · simp_all [statusOf]

theorem embed_batch_status_mem {M : Type} (ext : Ext M) (st : ServerState M)
    (req : BatchEmbedRequest) :
    statusOf (embed_batch ext st req).result = 200 ∨
    statusOf (embed_batch ext st req).result = 400 ∨
    statusOf (embed_batch ext st req).result = 500 := by
  simp only [embed_batch]
  split
  · simp_all [statusOf]
  · split
    · rcases hg : get_fastembed_model ext st (req.model.getD "") with ⟨res, st1, ev⟩
      cases res with
      | error e => simp_all [statusOf]
      | ok m =>
        cases he : ext.feEmbed m req.texts with
        | error e => simp_all [statusOf]
        | ok vecs => simp_all [statusOf]
    · split
      · rcases hg : get_st_model ext st (req.model.getD "") req.trust_remote_code
          with ⟨res, st1, ev⟩
        cases res with
        | error e => simp_all [statusOf]
        | ok m =>
          cases he : ext.stEncodeBatch m req.texts
              (if truthy req.prompt_name then req.prompt_name else none) with
          | error e => simp_all [statusOf]
          | ok vecs => simp_all [statusOf]
      · simp_all [statusOf]

theorem rerank_status_mem {M : Type} (ext : Ext M) (st : ServerState M)
    (req : RerankRequest) :
    statusOf (rerank ext st req).result = 200 ∨
    statusOf (rerank ext st req).result = 400 ∨
    statusOf (rerank ext st req).result = 500 := by
  simp only [rerank]
  split
  · simp_all [statusOf]
  · split
    · simp_all [statusOf]
    · split
      · split
        · simp_all [statusOf]
        · split <;> simp_all [statusOf]
      · split
        · split
          · simp_all [statusOf]
          · split <;> simp_all [statusOf]
        · simp_all [statusOf]

theorem svc_rerank_status_mem {M : Type} (load : Except String M)
    (oracle : M → String → List String → Except String (List Int))
    (st : Option M) (query : Option String) (documents : List String)
    (tn : Option Int) :
    statusOf (svc_rerank load oracle st query documents tn).result = 200 ∨
    statusOf (svc_rerank load oracle st query documents tn).result = 400 ∨
    statusOf (svc_rerank load oracle st query documents tn).result = 500 := by
  simp only [svc_rerank]
  split
  · simp_all [statusOf]
  · split
    · simp_all [statusOf]
    · split
      · simp_all [statusOf]
      · split
        · simp_all [statusOf]
        · split <;> simp_all [statusOf]

/-- **C8.** Every error raised while handling an inference request — load
failures and exceptions from the model library — is caught and converted to
an error response; no outcome escapes the 200/400/500 classification (no
unhandled fault), and the 500 bodies preserve the underlying library error
message verbatim, for load failures and for inference failures on all three
operations. -/
theorem c8_errors_caught_and_preserved {M : Type} :
    (∀ (ext : Ext M) (st : ServerState M) (req : EmbedRequest),
      statusOf (embed ext st req).result = 200 ∨
      statusOf (embed ext st req).result = 400 ∨
      statusOf (embed ext st req).result = 500) ∧
    (∀ (ext : Ext M) (st : ServerState M) (req : BatchEmbedRequest),
      statusOf (embed_batch ext st req).result = 200 ∨
      statusOf (embed_batch ext st req).result = 400 ∨
      statusOf (embed_batch ext st req).result = 500) ∧
    (∀ (ext : Ext M) (st : ServerState M) (req : RerankRequest),
      statusOf (rerank ext st req).result = 200 ∨
      statusOf (rerank ext st req).result = 400 ∨
      statusOf (rerank ext st req).result = 500) ∧
    (∀ (load : Except String M)
       (oracle : M → String → List String → Except String (List Int))
       (st : Option M) (query : Option String) (documents : List String)
       (tn : Option Int),
      statusOf (svc_rerank load oracle st query documents tn).result = 200 ∨
      statusOf (svc_rerank load oracle st query documents tn).result = 400 ∨
      statusOf (svc_rerank load oracle st query documents tn).result = 500) ∧
    (∀ (ext : Ext M) (st : ServerState M) (name text e : String) (trust : Bool)
       (pn : Option String),
      name.isEmpty = false → text.isEmpty = false →
      st.fastembed_models.lookup name = none → name ∈ FASTEMBED_SUPPORTED →
      ext.textEmbedding name = .error e →
      (embed ext st ⟨some "fastembed", some name, some text, trust, pn⟩).result =
        .error ⟨500, e⟩) ∧
    (∀ (ext : Ext M) (st : ServerState M) (name text e : String) (m : M)
       (trust : Bool) (pn : Option String),
      name.isEmpty = false → text.isEmpty = false →
      st.fastembed_models.lookup name = some m →
      ext.feEmbed m [text] = .error e →
      (embed ext st ⟨some "fastembed", some name, some text, trust, pn⟩).result =
        .error ⟨500, e⟩) ∧
    (∀ (ext : Ext M) (st : ServerState M) (name e : String)
       (texts : List String) (m : M) (trust : Bool) (pn : Option String),
      name.isEmpty = false → texts.isEmpty = false →
      st.fastembed_models.lookup name = some m →
      ext.feEmbed m texts = .error e →
      (embed_batch ext st ⟨some "fastembed", some name, texts, trust,
          pn⟩).result = .error ⟨500, e⟩) ∧
    (∀ (ext : Ext M) (st : ServerState M) (name query e : String)
       (docs : List String) (m : M) (tn : Option Int) (trust : Bool),
      name.isEmpty = false → query.isEmpty = false → docs.isEmpty = false →
      st.reranker_models.lookup ("fastembed" ++ ":" ++ name) = some m →
      ext.feRerank m query docs = .error e →
      (rerank ext st ⟨some "fastembed", some name, some query, docs, tn,
          trust⟩).result = .error ⟨500, e⟩) := by
  have hfe : "fastembed".isEmpty = false := by decide
  refine ⟨embed_status_mem, embed_batch_status_mem, rerank_status_mem,
    svc_rerank_status_mem, ?_, ?_, ?_, ?_⟩
  · intro ext st name text e trust pn hname htext hmiss hsup hload
    simp [embed, truthy, hfe, hname, htext, get_fastembed_model, hmiss, hsup,
      hload]
  · intro ext st name text e m trust pn hname htext hlook hinfer
    simp [embed, truthy, hfe, hname, htext, get_fastembed_model, hlook, hinfer]
  · intro ext st name e texts m trust pn hname htexts hlook hinfer
    simp [embed_batch, truthy, hfe, hname, htexts, get_fastembed_model, hlook,
      hinfer]
  · intro ext st name query e docs m tn trust hname hquery hdocs hlook hinfer
    have h2 : List.lookup ("fastembed:" ++ name) st.reranker_models = some m := by
      simpa using hlook
    simp [rerank, truthy, hfe, hname, hquery, hdocs, get_reranker_model, h2,
      hinfer]

/-- Witness for C8: concrete classification outcomes and preserved error
messages (`boom-load`, `boom-infer`) through the handlers. -/
theorem c8_preservation_witness :
    (statusOf (embed extFail (ServerState.empty Nat)
        ⟨some "fastembed", some "BAAI/bge-small-en-v1.5", some "hi", false,
         none⟩).result = 200 ∨
     statusOf (embed extFail (ServerState.empty Nat)
        ⟨some "fastembed", some "BAAI/bge-small-en-v1.5", some "hi", false,
         none⟩).result = 400 ∨
     statusOf (embed extFail (ServerState.empty Nat)
        ⟨some "fastembed", some "BAAI/bge-small-en-v1.5", some "hi", false,
         none⟩).result = 500) ∧
    (embed extFail (ServerState.empty Nat)
        ⟨some "fastembed", some "BAAI/bge-small-en-v1.5", some "hi", false,
         none⟩).result = .error ⟨500, "boom-load"⟩ ∧
    (embed extFail (⟨[("m", 1)], [], []⟩ : ServerState Nat)
        ⟨some "fastembed", some "m", some "hi", false, none⟩).result =
      .error ⟨500, "boom-infer"⟩ ∧
    (embed_batch extFail (⟨[("m", 1)], [], []⟩ : ServerState Nat)
        ⟨some "fastembed", some "m", ["x"], false, none⟩).result =
      .error ⟨500, "boom-infer"⟩ ∧
    (rerank extFail (⟨[], [], [("fastembed:m", 1)]⟩ : ServerState Nat)
        ⟨some "fastembed", some "m", some "q", ["d"], none, false⟩).result =
      .error ⟨500, "boom-infer"⟩ :=
  ⟨c8_errors_caught_and_preserved.1 extFail _ _,
   c8_errors_caught_and_preserved.2.2.2.2.1 extFail _ _ _ _ false none
     (by decide) (by decide) (by decide) (by decide) rfl,
   c8_errors_caught_and_preserved.2.2.2.2.2.1 extFail _ _ _ _ 1 false none
     (by decide) (by decide) (by decide) rfl,
   c8_errors_caught_and_preserved.2.2.2.2.2.2.1 extFail _ _ _ ["x"] 1 false none
     (by decide) (by decide) (by decide) rfl,
   c8_errors_caught_and_preserved.2.2.2.2.2.2.2 extFail _ _ _ _ ["d"] 1 none
     false (by decide) (by decide) (by decide) (by decide) rfl⟩

end EmbedServer
